import Mathlib

/-!
Shallow embedding of the CodeSync remote-interview platform's client and
middleware logic, as written in the repository's TypeScript sources:

* `src/middleware.ts` — Clerk route-protection configuration (public,
  ignored and matcher-covered routes) and the resulting access-gate
  decision per request path and session state.
* `src/components/MeetingModal.tsx` — the `handleStart` handler that
  derives a call id from a pasted meeting URL.
* `src/hooks/useUserRole.ts` — the role-resolution hook.
* `src/components/EndCallButton.tsx` — render gating and the `endCall`
  action sequence; also `DashboardBtn` and the hydration-safe
  `VideoPlayer`.

Machine strings are modelled as Lean `String`; JavaScript `undefined` and
`null` as `Option` layers; the fallibility of awaited external calls as
explicit success flags; a React component's render output as a small
inductive of the distinct elements it can return.
-/

/-- Does the character-list pattern `p` occur at the head of `l`?  Used to
embed regex prefix tests (`startsWith`) structurally so that the kernel can
evaluate them. -/
def leadsWith : List Char → List Char → Bool
  | [], _ => true
  | _ :: _, [] => false
  | p :: ps, c :: cs => p == c && leadsWith ps cs

/-- The extension alternation of the middleware matcher regex in
`src/middleware.ts`:
`(?:html?|css|js(?!on)|jpe?g|webp|png|gif|svg|ttf|woff2?|ico|csv|docx?|xlsx?|zip|webmanifest)`.
Returns true when some alternative matches at the head of `l`; optional
trailing letters (`html?`, `woff2?`, `jpe?g`, `docx?`, `xlsx?`) make the
shorter stem sufficient, and `js(?!on)` forbids the continuation `on`. -/
def extMatchesAt (l : List Char) : Bool :=
  leadsWith "htm".data l || leadsWith "css".data l ||
  (leadsWith "js".data l && !(leadsWith "json".data l)) ||
  leadsWith "jpg".data l || leadsWith "jpeg".data l ||
  leadsWith "webp".data l || leadsWith "png".data l ||
  leadsWith "gif".data l || leadsWith "svg".data l ||
  leadsWith "ttf".data l || leadsWith "woff".data l ||
  leadsWith "ico".data l || leadsWith "csv".data l ||
  leadsWith "doc".data l || leadsWith "xls".data l ||
  leadsWith "zip".data l || leadsWith "webmanifest".data l

/-- The lookahead component `[^?]*\.(?:ext…)` of the matcher regex: true
when the path tail contains a dot preceded only by non-`?` characters and
followed by one of the static-file extensions. -/
def hasExtAfterDot : List Char → Bool
  | [] => false
  | c :: rest =>
    if c == '?' then false
    else if c == '.' then extMatchesAt rest || hasExtAfterDot rest
    else hasExtAfterDot rest

/-- The negative lookahead `(?!_next|[^?]*\.(?:ext…))` applied to the path
tail after the leading slash: the matcher excludes Next.js internals and
static-file-looking paths. -/
def matcherExcluded (t : List Char) : Bool :=
  leadsWith "_next".data t || hasExtAfterDot t

/-- First matcher entry of `config.matcher` in `src/middleware.ts`:
`"/((?!_next|[^?]*\\.(?:…)).*)"`. -/
def matchesMatcher1 (p : String) : Bool :=
  match p.data with
  | '/' :: t => !(matcherExcluded t)
  | _ => false

/-- Second matcher entry of `config.matcher`: `"/(api|trpc)(.*)"`. -/
def matchesMatcher2 (p : String) : Bool :=
  leadsWith "/api".data p.data || leadsWith "/trpc".data p.data

/-- A request path is seen by the middleware at all iff some `config.matcher`
entry matches it. -/
def middlewareRuns (p : String) : Bool :=
  matchesMatcher1 p || matchesMatcher2 p

/-- `publicRoutes` of the `authMiddleware` configuration in
`src/middleware.ts`: routes that can be accessed while signed out. -/
def publicRoutes : List String := ["/"]

/-- `ignoredRoutes` of the `authMiddleware` configuration in
`src/middleware.ts`: routes that can always be accessed and carry no
authentication information. -/
def ignoredRoutes : List String := ["/api/webhook", "/api/convex"]

/-- Outcome of the access gate for one request: either the request is
forwarded to application rendering logic, or it is short-circuited with a
redirect/challenge response. -/
inductive GateOutcome where
  | proceed
  | redirect
deriving DecidableEq

/-- Result of running the access gate on a request: the outcome, plus
whether the session credential was inspected at all (ignored routes and
paths outside the matcher bypass the authentication check entirely). -/
structure GateResult where
  outcome : GateOutcome
  authChecked : Bool
deriving DecidableEq

/-- Modelled from the spec: the enforcement semantics of the external
Clerk `authMiddleware` wrapper (not part of this repository's sources) as
described in the spec's Access Gate contract — a path outside the matcher
or in `ignoredRoutes` bypasses the check; a path in `publicRoutes` is always
allowed; any other matched path requires a valid session and is otherwise
answered with a redirect.  The configuration values are the literal ones of
`src/middleware.ts`.  A malformed or expired credential is treated as
absence, so the session state is a single Bool. -/
def accessGate (p : String) (hasValidSession : Bool) : GateResult :=
  if !(middlewareRuns p) then ⟨.proceed, false⟩
  else if ignoredRoutes.contains p then ⟨.proceed, false⟩
  else if publicRoutes.contains p then ⟨.proceed, true⟩
  else if hasValidSession then ⟨.proceed, true⟩
  else ⟨.redirect, true⟩

/-- A path is protected under the configuration of `src/middleware.ts`:
covered by the matcher and neither ignored nor public. -/
def isProtected (p : String) : Bool :=
  middlewareRuns p && !(ignoredRoutes.contains p) && !(publicRoutes.contains p)

/-- Written from the spec's words, for comparison with the code: the
claimed protected-pattern classification "dashboard, schedule, meeting,
recordings path prefixes, each with an arbitrary-suffix wildcard". -/
def matchesSpecProtectedPatterns (p : String) : Bool :=
  leadsWith "/dashboard".data p.data || leadsWith "/schedule".data p.data ||
  leadsWith "/meeting".data p.data || leadsWith "/recordings".data p.data


/-- JavaScript `s.split("/")` on a character list: splitting on the single
character `/` always yields at least one (possibly empty) segment, exactly
as in `String.prototype.split`. -/
def splitOnSlash : List Char → List (List Char)
  | [] => [[]]
  | c :: rest =>
    if c == '/' then [] :: splitOnSlash rest
    else
      match splitOnSlash rest with
      | h :: t => (c :: h) :: t
      | [] => [c :: rest]

/-- JavaScript `Array.prototype.pop()` on the split result: the last
segment (the split of a string on `/` is never empty, so `pop` never
returns `undefined` here; an empty list defaults to the empty segment). -/
def jsPop (xs : List (List Char)) : List Char :=
  match xs.getLast? with
  | some x => x
  | none => []

/-- `meetingUrl.split("/").pop()` in `handleStart` of
`src/components/MeetingModal.tsx`: the final segment of the input after
splitting on `/`. -/
def derivedMeetingId (s : String) : String :=
  String.mk (jsPop (splitOnSlash s.data))

/-- The branch taken by `handleStart`: call `joinMeeting` with the derived
id, show the validation alert, or call `createInstantMeeting`. -/
inductive MeetingAction where
  | joinMeetingAct (id : String)
  | alertInvalidUrl
  | createInstant
deriving DecidableEq

/-- Observable effect of one `handleStart` invocation in
`src/components/MeetingModal.tsx`: which action ran, the `meetingUrl` state
after the handler (`setMeetingUrl("")`), and whether `onClose` was
invoked. -/
structure HandleStartResult where
  action : MeetingAction
  meetingUrlAfter : String
  closed : Bool
deriving DecidableEq

/-- `handleStart` of `src/components/MeetingModal.tsx`: in join mode the
final URL segment is the meeting id and is truthy (non-empty) or the
validation alert fires; in either mode the input state is cleared and the
dialog closed afterwards. -/
def handleStart (isJoinMeeting : Bool) (meetingUrl : String) : HandleStartResult :=
  if isJoinMeeting then
    let meetingId := derivedMeetingId meetingUrl
    if meetingId == "" then ⟨.alertInvalidUrl, "", true⟩
    else ⟨.joinMeetingAct meetingId, "", true⟩
  else ⟨.createInstant, "", true⟩


/-- The authenticated Clerk identity as read by `useUser()`: only its `id`
is consumed by this code. -/
structure ClerkUser where
  id : String
deriving DecidableEq

/-- A user record in the data store as consumed by `useUserRole`: only the
`role` string field is read (`userData?.role`). -/
structure UserDoc where
  role : String
deriving DecidableEq

/-- The record returned by the `useUserRole` hook. -/
structure UserRoleResult where
  isLoading : Bool
  isInterviewer : Bool
  isCandidate : Bool
deriving DecidableEq

/-- The query argument `user?.id || ""` of `useUserRole`. -/
def clerkIdArg (user : Option ClerkUser) : String :=
  match user with
  | some u => if u.id == "" then "" else u.id
  | none => ""

/-- `useUserRole` of `src/hooks/useUserRole.ts`.  `user` is the current
`useUser()` identity (`none` while unresolved); `userData` is the state of
`useQuery(api.users.getUserByClerkId, { clerkId: user?.id || "" })`:
`none` while the query is in flight (JS `undefined`), `some none` when it
resolved with no record (JS `null`), `some (some doc)` when a record was
found.  The hook returns `isLoading := userData === undefined`,
`isInterviewer := userData?.role === "interviewer"`,
`isCandidate := userData?.role === "candidate"`. -/
def useUserRole (user : Option ClerkUser) (userData : Option (Option UserDoc)) :
    UserRoleResult :=
  { isLoading := userData.isNone
    isInterviewer :=
      match userData with
      | some (some u) => u.role == "interviewer"
      | _ => false
    isCandidate :=
      match userData with
      | some (some u) => u.role == "candidate"
      | _ => false }

/-- Render output of `DashboardBtn` in the sources: either nothing or the
dashboard link with its button. -/
inductive DashboardView where
  | nothing
  | dashboardLink
deriving DecidableEq

/-- `DashboardBtn`: `if (isCandidate || isLoading) return null;` else the
`/dashboard` link is rendered. -/
def dashboardBtn (r : UserRoleResult) : DashboardView :=
  if r.isCandidate || r.isLoading then .nothing else .dashboardLink

/-- `call.state.createdBy` as read by `EndCallButton`: optional, with an
`id` field. -/
structure UserRef where
  id : String
deriving DecidableEq

/-- The call state consumed by `EndCallButton`: only `createdBy?.id` is
read. -/
structure CallState where
  createdBy : Option UserRef
deriving DecidableEq

/-- The `useCall()` object as consumed by `EndCallButton`: its `id` (used
as the query key `call?.id || ""`) and its `state`. -/
structure Call where
  id : String
  state : CallState
deriving DecidableEq

/-- The local participant of `useLocalParticipant()`: only `userId` is
read; the participant itself may be `undefined`. -/
structure Participant where
  userId : String
deriving DecidableEq

/-- An interview record as consumed by `EndCallButton`: only `_id` is used
(as the mutation argument). -/
structure InterviewDoc where
  docId : String
deriving DecidableEq

/-- Render output of `EndCallButton`: `null` or the destructive
"End Meeting" button. -/
inductive EndCallView where
  | nothing
  | endButton
deriving DecidableEq

/-- Render gating of `EndCallButton` in `src/components/EndCallButton.tsx`:
`if (!call || !interview) return null;` then
`isMeetingOwner = localParticipant?.userId === call.state.createdBy?.id`
(JavaScript strict equality, under which two `undefined` sides compare
equal) and `if (!isMeetingOwner) return null;` else the button.  The
`interview` argument is the `useQuery` state: `none` in flight, `some none`
resolved `null`, `some (some doc)` found; both falsy states return
`null`. -/
def endCallButtonRender (call : Option Call) (interview : Option (Option InterviewDoc))
    (localParticipant : Option Participant) : EndCallView :=
  match call with
  | none => .nothing
  | some c =>
    match interview with
    | some (some _) =>
      if (localParticipant.map Participant.userId) == (c.state.createdBy.map UserRef.id)
      then .endButton else .nothing
    | _ => .nothing

/-- Written from the spec's words, for comparison with the code: the
claimed render condition — call resolved, interview record resolved, and
the locally authenticated participant's id equal to the call's recorded
creator id (both ids present). -/
def endCallRenderSpec (call : Option Call) (interview : Option (Option InterviewDoc))
    (localParticipant : Option Participant) : Bool :=
  match call, interview, localParticipant with
  | some c, some (some _), some p =>
    match c.state.createdBy with
    | some u => p.userId == u.id
    | none => false
  | _, _, _ => false

/-- One observable event of the `endCall` handler: the awaited external
operations with their success, the navigation, the `console.error` log and
the toast notifications. -/
inductive CallEv where
  | endCallOp (ok : Bool)
  | updateStatusOp (status : String) (ok : Bool)
  | pushRoute (route : String)
  | consoleError
  | toastSuccess
  | toastError
deriving DecidableEq

/-- The `endCall` handler of `src/components/EndCallButton.tsx` as an event
trace, parameterised by whether each awaited external call succeeds:
`try { await call.endCall(); await updateInterviewStatus({id, status:
"completed"}); router.push("/"); toast.success(…) } catch { console.error;
toast.error(…) }`.  A failing await aborts the rest of the `try` block and
transfers to the `catch` block; nothing is rolled back. -/
def endCallHandler (endOk updateOk : Bool) : List CallEv :=
  if endOk then
    if updateOk then
      [.endCallOp true, .updateStatusOp "completed" true, .pushRoute "/", .toastSuccess]
    else
      [.endCallOp true, .updateStatusOp "completed" false, .consoleError, .toastError]
  else
    [.endCallOp false, .consoleError, .toastError]

/-- True for the events that mutate the interview record or navigate: a
successful status mutation or a route push. -/
def mutatesOrNavigates : CallEv → Bool
  | .updateStatusOp _ true => true
  | .pushRoute _ => true
  | _ => false

/-- Render output of the hydration-safe `VideoPlayer`: the pulsing
placeholder `div` or the live `video` element with its `src`. -/
inductive VideoView where
  | placeholderView
  | videoElem (src : String)
deriving DecidableEq

/-- `VideoPlayer` render as a function of its `mounted` state:
`if (!mounted) return placeholder; return <video src={src} …/>`. -/
def videoPlayer (src : String) (mounted : Bool) : VideoView :=
  if mounted then .videoElem src else .placeholderView

/-- The initial value of the `mounted` flag, `useState(false)`: in effect
for the server-side render and for the client's first render, before the
`useEffect(() => setMounted(true), [])` callback runs. -/
def initialMounted : Bool := false

/-- The `mounted` flag after the client-mount effect has run. -/
def mountedAfterEffect : Bool := true

/-- The server-side (first and only) render of `VideoPlayer`. -/
def videoPlayerServerRender (src : String) : VideoView :=
  videoPlayer src initialMounted

/-- The client's first render of `VideoPlayer`, before the mount effect. -/
def videoPlayerClientFirstRender (src : String) : VideoView :=
  videoPlayer src initialMounted


/-- C1 counterexample: `/meeting/styles.css` matches the claimed protected
prefix set, yet the middleware matcher skips it as a static-file path, so
an unauthenticated request is forwarded with no auth check at all instead
of being redirected. -/
theorem static_suffix_bypasses_gate :
    matchesSpecProtectedPatterns "/meeting/styles.css" = true
    ∧ accessGate "/meeting/styles.css" false = ⟨.proceed, false⟩
    ∧ isProtected "/meeting/styles.css" = false := by decide

/-- C1 (amended): for every path the gate actually treats as protected —
covered by the matcher and neither public nor ignored — an unauthenticated
request is short-circuited with a redirect and never forwarded to
application rendering; the plain dashboard, schedule, meeting and
recordings paths are all such. -/
theorem protected_unauthenticated_redirects :
    (∀ p : String, isProtected p = true →
      (accessGate p false).outcome = .redirect
      ∧ (accessGate p false).outcome ≠ .proceed)
    ∧ isProtected "/dashboard" = true ∧ isProtected "/schedule" = true
    ∧ isProtected "/meeting/abc123" = true ∧ isProtected "/recordings" = true := by
  refine ⟨?_, by decide, by decide, by decide, by decide⟩
  intro p h
  unfold isProtected at h
  rw [Bool.and_eq_true, Bool.and_eq_true] at h
  obtain ⟨⟨h1, h2⟩, h3⟩ := h
  have h2' : ignoredRoutes.contains p = false := by simpa using h2
  have h3' : publicRoutes.contains p = false := by simpa using h3
  unfold accessGate
  rw [h1, h2', h3']
  decide

/-- Witness for C1's amended theorem at the concrete path `/dashboard`. -/
theorem protected_unauthenticated_redirects_witness :
    (accessGate "/dashboard" false).outcome = .redirect :=
  (protected_unauthenticated_redirects.1 "/dashboard" (by decide)).1

/-- C6 counterexample: `/profile` is protected by the gate (unauthenticated
access is redirected) although it matches none of the claimed dashboard,
schedule, meeting or recordings prefixes, so the claimed "protected iff
prefix pattern" classification is false. -/
theorem nonprefix_path_is_protected :
    isProtected "/profile" = true
    ∧ matchesSpecProtectedPatterns "/profile" = false
    ∧ (accessGate "/profile" false).outcome = .redirect := by decide

/-- C6 (amended): the root path is always allowed regardless of credential;
the ignored webhook/API bridge paths bypass the authentication check
entirely; and a path is protected (redirected when no credential is
present) exactly when it is covered by the matcher and is neither the
public root nor an ignored route. -/
theorem gate_classification :
    (∀ cred : Bool, accessGate "/" cred = ⟨.proceed, true⟩)
    ∧ (∀ cred : Bool, accessGate "/api/webhook" cred = ⟨.proceed, false⟩
        ∧ accessGate "/api/convex" cred = ⟨.proceed, false⟩)
    ∧ (∀ p : String, isProtected p = true ↔ (accessGate p false).outcome = .redirect) := by
  refine ⟨by decide, by decide, ?_⟩
  intro p
  by_cases hm : middlewareRuns p = true <;>
    by_cases hi : p ∈ ignoredRoutes <;>
    by_cases hp : p ∈ publicRoutes <;>
    simp [accessGate, isProtected, hm, hi, hp, Bool.not_eq_true] at *

/-- Witness for C6's amended theorem at the root path and a protected path. -/
theorem gate_classification_witness :
    accessGate "/" false = ⟨.proceed, true⟩
    ∧ (isProtected "/recordings" = true ↔
        (accessGate "/recordings" false).outcome = .redirect) :=
  ⟨gate_classification.1 false, gate_classification.2.2 "/recordings"⟩

/-- C2: in join mode, `handleStart` derives the call id as the final
segment of the input split on `/`; it calls `joinMeeting` with that id when
the segment is non-empty, and exactly when the final segment is empty it
surfaces the validation alert instead, performing no join and no instant
meeting creation; `"https://x/y/abc123"` yields id `"abc123"`, while `""`
and `"/"` fail validation. -/
theorem join_meeting_id_derivation :
    (∀ url : String,
      ((handleStart true url).action = .alertInvalidUrl ↔ derivedMeetingId url = "")
      ∧ (derivedMeetingId url ≠ "" →
          (handleStart true url).action = .joinMeetingAct (derivedMeetingId url))
      ∧ (derivedMeetingId url = "" →
          ∀ id, (handleStart true url).action ≠ .joinMeetingAct id)
      ∧ (handleStart true url).action ≠ .createInstant)
    ∧ handleStart true "https://x/y/abc123" = ⟨.joinMeetingAct "abc123", "", true⟩
    ∧ (handleStart true "").action = .alertInvalidUrl
    ∧ (handleStart true "/").action = .alertInvalidUrl := by
  refine ⟨?_, by decide, by decide, by decide⟩
  intro url
  by_cases h : derivedMeetingId url = ""
  · simp [handleStart, h]
  · simp [handleStart, h]

/-- Witness for C2's theorem: a pasted path with a non-empty final segment
joins with that id, and an input whose final segment is empty alerts. -/
theorem join_meeting_id_derivation_witness :
    (handleStart true "x/y").action = .joinMeetingAct (derivedMeetingId "x/y")
    ∧ ∀ id, (handleStart true "abc/").action ≠ .joinMeetingAct id :=
  ⟨(join_meeting_id_derivation.1 "x/y").2.1 (by decide),
   (join_meeting_id_derivation.1 "abc/").2.2.1 (by decide)⟩

/-- C9: every invocation of `handleStart` — instant creation, successful
join, or failed join validation — resets the `meetingUrl` state to the
empty string and invokes `onClose`. -/
theorem handle_start_resets_and_closes :
    ∀ (isJoinMeeting : Bool) (url : String),
      (handleStart isJoinMeeting url).meetingUrlAfter = ""
      ∧ (handleStart isJoinMeeting url).closed = true := by
  intro isJoin url
  cases isJoin
  · simp [handleStart]
  · by_cases h : derivedMeetingId url = "" <;> simp [handleStart, h]

/-- C3 counterexample: when the record lookup resolves with no user record
(the query returned `null`, e.g. before the identity is synced to the data
store), the hook reports none of the three claimed states — not loading, not
interviewer, and not candidate — so its output is not "exactly one of three
values" and candidate is not a default. -/
theorem role_hook_reports_no_state :
    (useUserRole (some ⟨"user_1"⟩) (some none)).isLoading = false
    ∧ (useUserRole (some ⟨"user_1"⟩) (some none)).isInterviewer = false
    ∧ (useUserRole (some ⟨"user_1"⟩) (some none)).isCandidate = false := by decide

/-- C3 (amended): the hook reports loading exactly while the user-record
query is unresolved and reports no role in that interim; once the query
resolves with a record, it reports interviewer or candidate exactly when the
record's role is the corresponding literal; when the query resolves with no
record it reports neither loading nor any role (candidate is not a
default); it never reports both roles. -/
theorem role_resolution_states :
    ∀ (user : Option ClerkUser) (d : Option (Option UserDoc)),
      ((useUserRole user d).isLoading = d.isNone)
      ∧ (d = none → (useUserRole user d).isInterviewer = false
          ∧ (useUserRole user d).isCandidate = false)
      ∧ (∀ doc, d = some (some doc) →
          (useUserRole user d).isInterviewer = (doc.role == "interviewer")
          ∧ (useUserRole user d).isCandidate = (doc.role == "candidate"))
      ∧ (d = some none → (useUserRole user d).isLoading = false
          ∧ (useUserRole user d).isInterviewer = false
          ∧ (useUserRole user d).isCandidate = false)
      ∧ (((useUserRole user d).isInterviewer && (useUserRole user d).isCandidate)
          = false) := by
  intro user d
  rcases d with _ | d'
  · simp [useUserRole]
  · rcases d' with _ | doc
    · simp [useUserRole]
    · refine ⟨by simp [useUserRole], by simp, ?_, by simp, ?_⟩
      · intro doc' hd
        obtain rfl : doc = doc' := by simpa using hd
        exact ⟨rfl, rfl⟩
      · by_cases h : doc.role = "interviewer" <;> simp [useUserRole, h]

/-- Witness for C3's amended theorem at concrete states: an in-flight query
reports no role, and a resolved interviewer record reports the interviewer
flag. -/
theorem role_resolution_states_witness :
    ((useUserRole (some ⟨"u"⟩) none).isInterviewer = false
      ∧ (useUserRole (some ⟨"u"⟩) none).isCandidate = false)
    ∧ (useUserRole (some ⟨"u"⟩) (some (some ⟨"interviewer"⟩))).isInterviewer
        = ("interviewer" == "interviewer") :=
  ⟨(role_resolution_states (some ⟨"u"⟩) none).2.1 rfl,
   ((role_resolution_states (some ⟨"u"⟩) (some (some ⟨"interviewer"⟩))).2.2.1
      ⟨"interviewer"⟩ rfl).1⟩

/-- C8: the dashboard button consumer of the role-resolution hook renders
nothing whenever the hook reports loading, renders nothing whenever it
reports candidate, and renders the dashboard link exactly when the hook's
result is neither loading nor candidate. -/
theorem dashboard_button_role_gating :
    ∀ (user : Option ClerkUser) (d : Option (Option UserDoc)),
      ((useUserRole user d).isLoading = true →
        dashboardBtn (useUserRole user d) = .nothing)
      ∧ ((useUserRole user d).isCandidate = true →
        dashboardBtn (useUserRole user d) = .nothing)
      ∧ (dashboardBtn (useUserRole user d) = .dashboardLink ↔
          (useUserRole user d).isLoading = false
          ∧ (useUserRole user d).isCandidate = false) := by
  intro user d
  rcases d with _ | (_ | doc)
  · simp [useUserRole, dashboardBtn]
  · simp [useUserRole, dashboardBtn]
  · by_cases h : doc.role = "candidate" <;> simp [useUserRole, dashboardBtn, h]

/-- Witness for C8's theorem: while the record query is in flight the
button renders nothing. -/
theorem dashboard_button_role_gating_witness :
    dashboardBtn (useUserRole (some ⟨"u"⟩) none) = .nothing :=
  (dashboard_button_role_gating (some ⟨"u"⟩) none).1 (by decide)

/-- C4 counterexample: with a resolved call whose state records no creator
and a resolved interview record but no local participant, the control
renders the end-call button even though there is no locally authenticated
participant id to equal any creator id (JavaScript strict equality of two
`undefined` optional chains), refuting "in every other case it renders
nothing". -/
theorem endcall_renders_without_participant :
    endCallButtonRender (some ⟨"c1", ⟨none⟩⟩) (some (some ⟨"i1"⟩)) none = .endButton
    ∧ endCallRenderSpec (some ⟨"c1", ⟨none⟩⟩) (some (some ⟨"i1"⟩)) none = false := by
  decide

/-- C4 (amended): the end-call control renders nothing when the call is
absent or the interview record is unresolved or null; with both resolved it
renders the button exactly when the optional local-participant id and the
optional creator id agree under strict equality — equal present ids, or
both absent — and renders nothing for any participant whose id differs from
a recorded creator id; absence of data yields the no-render outcome, not an
error. -/
theorem endcall_render_gating :
    ∀ (call : Option Call) (interview : Option (Option InterviewDoc))
      (lp : Option Participant),
      (endCallButtonRender none interview lp = .nothing)
      ∧ (endCallButtonRender call none lp = .nothing)
      ∧ (endCallButtonRender call (some none) lp = .nothing)
      ∧ (∀ c, call = some c →
          (endCallButtonRender call interview lp = .endButton ↔
            (∃ doc, interview = some (some doc))
            ∧ ((lp.map Participant.userId) == (c.state.createdBy.map UserRef.id))
                = true)) := by
  intro call interview lp
  refine ⟨?_, ?_, ?_, ?_⟩
  · simp [endCallButtonRender]
  · rcases call with _ | c <;> simp [endCallButtonRender]
  · rcases call with _ | c <;> simp [endCallButtonRender]
  · rintro c rfl
    rcases interview with _ | (_ | doc)
    · simp [endCallButtonRender]
    · simp [endCallButtonRender]
    · by_cases h : ((lp.map Participant.userId) == (c.state.createdBy.map UserRef.id))
          = true
      · simp [endCallButtonRender, h]
      · simp [endCallButtonRender, h] at *

/-- Witness for C4's amended theorem: the owner participant sees the
button. -/
theorem endcall_render_gating_witness :
    endCallButtonRender (some ⟨"c1", ⟨some ⟨"owner"⟩⟩⟩) (some (some ⟨"i1"⟩))
      (some ⟨"owner"⟩) = .endButton :=
  ((endcall_render_gating (some ⟨"c1", ⟨some ⟨"owner"⟩⟩⟩) (some (some ⟨"i1"⟩))
      (some ⟨"owner"⟩)).2.2.2 _ rfl).mpr ⟨⟨⟨"i1"⟩, rfl⟩, by decide⟩

/-- C5: the end-call action runs end-call, then the `completed` status
mutation, then navigation to the home route, in that order; if an awaited
step fails, the error is logged via `console.error` and the failure toast
is shown, and no rollback of already-completed steps occurs — the traces
after a failure contain exactly the completed steps, the log and the
toast. -/
theorem endcall_action_sequence :
    (endCallHandler true true =
      [.endCallOp true, .updateStatusOp "completed" true, .pushRoute "/",
        .toastSuccess])
    ∧ (endCallHandler true false =
      [.endCallOp true, .updateStatusOp "completed" false, .consoleError,
        .toastError])
    ∧ (∀ b, endCallHandler false b = [.endCallOp false, .consoleError, .toastError])
    ∧ (∀ endOk updateOk, (endOk && updateOk) = false →
        CallEv.consoleError ∈ endCallHandler endOk updateOk
        ∧ CallEv.toastError ∈ endCallHandler endOk updateOk) := by decide

/-- Witness for C5's theorem: the failed-mutation run logs and toasts the
error. -/
theorem endcall_action_sequence_witness :
    CallEv.consoleError ∈ endCallHandler true false
    ∧ CallEv.toastError ∈ endCallHandler true false :=
  endcall_action_sequence.2.2.2 true false (by decide)

/-- C10: when ending the call fails, the handler performs no interview
status mutation and no navigation — the trace is exactly the failed
end-call attempt, the log and the error toast, and contains no successful
mutation and no route push. -/
theorem endcall_failure_preserves_state :
    ∀ (updateOk : Bool),
      endCallHandler false updateOk = [.endCallOp false, .consoleError, .toastError]
      ∧ (endCallHandler false updateOk).all (fun e => !(mutatesOrNavigates e))
          = true := by decide

/-- C7: while the mounted flag is false — the server render and the
client's first render, before the mount effect — the hydration-safe video
player renders the placeholder and never the video element; after mount it
renders the live video element; the server render and the client's first
render coincide. -/
theorem videoplayer_hydration_safety :
    ∀ (src : String),
      (videoPlayer src false = .placeholderView)
      ∧ (∀ s, videoPlayer src false ≠ .videoElem s)
      ∧ (videoPlayer src mountedAfterEffect = .videoElem src)
      ∧ (videoPlayerServerRender src = videoPlayerClientFirstRender src)
      ∧ (videoPlayerServerRender src = .placeholderView) := by
  intro src
  refine ⟨rfl, ?_, rfl, rfl, rfl⟩
  intro s
  simp [videoPlayer]

/-- Witness for C7's theorem at a concrete source: the unmounted render is
the placeholder, not a video element. -/
theorem videoplayer_hydration_safety_witness :
    videoPlayer "intro.mp4" false ≠ .videoElem "intro.mp4" :=
  (videoplayer_hydration_safety "intro.mp4").2.1 "intro.mp4"
